import Mathlib

/-!
The aws-s3-api service: the `/get-data` handler of `main.go`

A shallow embedding of `getMonthName`, `downloadObject` and `handleGet`.

Go `string` values are modelled by Lean `String` (sequences of characters).
The only byte-level tests the code performs are against ASCII characters
(the digits in `time.Parse`, the separator in `strings.Join`), and in UTF-8 an
ASCII byte never occurs inside a multi-byte character, so indexing by
character and indexing by byte agree wherever the code looks.

The Go standard library functions the program calls (`time.Parse` with the
layout `"01"`, `Month.String`, `strings.Join`, `url.Values.Get`, `http.Error`)
are modelled from the Go standard library sources.
-/

namespace S3Api

/-! ## Go standard library: package `time` -/

/-- Package time, `isDigit(s, i)`: whether `s[i]` is in range and is a decimal digit. -/
def isDigit (s : String) (i : Nat) : Bool :=
  match s.data.get? i with
  | none => false
  | some c => decide ('0' ≤ c) && decide (c ≤ '9')

/-- Numeric value `s[i] - '0'` of the character at index `i` (0 when out of range). -/
def digitAt (s : String) (i : Nat) : Nat :=
  match s.data.get? i with
  | none => 0
  | some c => c.toNat - '0'.toNat

/-- Package time, `getnum(s, fixed)`: parse a one- or two-digit number at the start
of `s`; with `fixed` set, exactly two digits are required. The error is `errBad`. -/
def getnum (s : String) (fixed : Bool) : Except Unit (Nat × String) :=
  if !isDigit s 0 then .error ()
  else if !isDigit s 1 then
    if fixed then .error ()
    else .ok (digitAt s 0, ⟨s.data.drop 1⟩)
  else .ok (digitAt s 0 * 10 + digitAt s 1, ⟨s.data.drop 2⟩)

/-- UTF-8 encoding of a character, as a list of byte values. -/
def utf8Bytes (c : Char) : List Nat :=
  let n := c.toNat
  if n < 0x80 then [n]
  else if n < 0x800 then [0xC0 + n / 0x40, 0x80 + n % 0x40]
  else if n < 0x10000 then [0xE0 + n / 0x1000, 0x80 + n / 0x40 % 0x40, 0x80 + n % 0x40]
  else [0xF0 + n / 0x40000, 0x80 + n / 0x1000 % 0x40, 0x80 + n / 0x40 % 0x40, 0x80 + n % 0x40]

/-- Package time, constant `lowerhex`, indexed by a value below 16. -/
def lowerhex (n : Nat) : Char :=
  "0123456789abcdef".data.getD n '0'

/-- Package time, `quote(s)`: `s` between double quotes, with `"` and `\` escaped by a
backslash and every byte of a control or non-ASCII character written `\xhh`. -/
def quote (s : String) : String :=
  let body := s.data.flatMap fun c =>
    if 0x80 ≤ c.toNat ∨ c.toNat < ' '.toNat then
      (utf8Bytes c).flatMap fun b => ['\\', 'x', lowerhex (b / 16), lowerhex (b % 16)]
    else if c = '"' ∨ c = '\\' then ['\\', c]
    else [c]
  ⟨'"' :: body ++ ['"']⟩

/-- Package time, `ParseError`. -/
structure ParseError where
  Layout : String
  Value : String
  LayoutElem : String
  ValueElem : String
  Message : String

/-- Package time, `(*ParseError).Error()`. -/
def ParseError.Error (e : ParseError) : String :=
  if e.Message = "" then
    "parsing time " ++ quote e.Value ++ " as " ++ quote e.Layout ++ ": cannot parse "
      ++ quote e.ValueElem ++ " as " ++ quote e.LayoutElem
  else
    "parsing time " ++ quote e.Value ++ e.Message

/-- Package time, `Time`, reduced to the civil date it denotes in UTC. -/
structure Time where
  year : Int
  month : Nat
  day : Nat

/-- Package time, `Date(year, month, day, 0, 0, 0, 0, UTC)` for a date that needs no
normalisation. -/
def Date (year : Int) (month day : Nat) : Time :=
  { year := year, month := month, day := day }

/-- Package time, `(Time).Month()`. -/
def Time.Month (t : Time) : Nat := t.month

/-- Package time, table `longMonthNames`. -/
def longMonthNames : List String :=
  ["January", "February", "March", "April", "May", "June",
   "July", "August", "September", "October", "November", "December"]

/-- Package time, `(Month).String()`. -/
def Month.String (m : Nat) : String :=
  if 1 ≤ m ∧ m ≤ 12 then longMonthNames.getD (m - 1) ""
  else "%!Month(" ++ toString m ++ ")"

/-- Package time, `Parse(layout, value)` for the layout `"01"`, which is the single
chunk `stdZeroMonth` with empty prefix and suffix: a fixed two-digit month is read
with `getnum(value, true)`; a month outside 1..12 is a range error; text left over
after the two digits is an error; the year defaults to 0 and the day to 1. -/
def Parse01 (value : String) : Except ParseError Time :=
  match getnum value true with
  | .error _ =>
    .error { Layout := "01", Value := value, LayoutElem := "01", ValueElem := value,
             Message := "" }
  | .ok (month, rest) =>
    if month ≤ 0 ∨ 12 < month then
      .error { Layout := "01", Value := value, LayoutElem := "01", ValueElem := rest,
               Message := ": month out of range" }
    else if rest.data.length ≠ 0 then
      .error { Layout := "01", Value := value, LayoutElem := "", ValueElem := rest,
               Message := ": extra text: " ++ quote rest }
    else .ok (Date 0 month 1)

/-! ## Go standard library: `strings`, `net/url`, `net/http` -/

/-- Package strings, `Join(elems, sep)`. -/
def Join : List String → String → String
  | [], _ => ""
  | [a], _ => a
  | a :: b :: rest, sep => a ++ sep ++ Join (b :: rest) sep

/-- Package net/url, `Values`: the decoded query, as its (key, value) pairs in the
order they occur in the URL. -/
abbrev Values := List (String × String)

/-- Package net/url, `(Values).Get(key)`: the first value associated with `key`, or
the empty string when there is none. -/
def Values.Get (v : Values) (key : String) : String :=
  match v.lookup key with
  | some value => value
  | none => ""

/-- A sequence of bytes. -/
abbrev Bytes := List UInt8

/-- The bytes of a Go string. -/
def stringBytes (s : String) : Bytes := s.toUTF8.data.toList

/-- What the handler wrote to its `http.ResponseWriter`: the status code, the header
fields it set and the body. -/
structure Response where
  status : Nat
  header : List (String × String)
  body : Bytes

/-- Package net/http, `StatusOK`. -/
def StatusOK : Nat := 200

/-- Package net/http, `StatusBadRequest`. -/
def StatusBadRequest : Nat := 400

/-- Package net/http, `StatusInternalServerError`. -/
def StatusInternalServerError : Nat := 500

/-- Package net/http, `Error(w, error, code)` on a writer nothing was written to: a
plain-text response with the given status whose body is the message and a newline. -/
def httpError (error : String) (code : Nat) : Response :=
  { status := code
    header := [("Content-Type", "text/plain; charset=utf-8"),
               ("X-Content-Type-Options", "nosniff")]
    body := stringBytes (error ++ "\n") }

/-! ## The environment of one request -/

/-- How the outside world answers during one request: the object store, the creation
of the temporary file, the copy of the object body into it and the read-back. -/
structure Env where
  /-- Result of `s3Client.GetObject` for a bucket and a key: the body of the object, or
  the message of the error. -/
  GetObject : String → String → Except String Bytes
  /-- Result of `os.CreateTemp`: the name of the new file, or the message of the error. -/
  CreateTemp : Except String String
  /-- Failure of `io.Copy`, if any: the number of bytes written before it, and the
  message of the error. -/
  Copy : Option (Nat × String)
  /-- Failure of `os.ReadFile`, if any: the message of the error. -/
  ReadFile : Option String

/-- The observable state around a request: the files on disk, the lines sent to the
process log, and the (bucket, key) pairs requested from the object store. -/
structure World where
  files : List (String × Bytes)
  log : List String
  calls : List (String × String)

/-- Package os, `ReadFile(name)`. -/
def ReadFile (env : Env) (w : World) (name : String) : Except String Bytes :=
  match env.ReadFile with
  | some err => .error err
  | none =>
    match w.files.lookup name with
    | some content => .ok content
    | none => .error ("open " ++ name ++ ": no such file or directory")

/-- Package log, `Printf` with a format ending in `%v`: one line is appended to the log. -/
def logPrintf (w : World) (message : String) (err : String) : World :=
  { w with log := w.log ++ [message ++ err] }

/-! ## `main.go` -/

/-- Function `getMonthName` of main.go: convert a numeric month to the month name.
The error is the message of the `fmt.Errorf` value. -/
def getMonthName (month : String) : Except String String :=
  match Parse01 month with
  | .error err => .error ("invalid month format: " ++ err.Error)
  | .ok parsedTime => .ok (Month.String parsedTime.Month)

/-- Function `downloadObject` of main.go: get the object, create a temporary file, copy
the body into it and return the name of the file. -/
def downloadObject (env : Env) (bucket key : String) (w : World) :
    Except String String × World :=
  let w := { w with calls := w.calls ++ [(bucket, key)] }
  match env.GetObject bucket key with
  | .error err => (.error err, w)
  | .ok body =>
    match env.CreateTemp with
    | .error err => (.error err, w)
    | .ok name =>
      match env.Copy with
      | some (n, err) => (.error err, { w with files := (name, body.take n) :: w.files })
      | none => (.ok name, { w with files := (name, body) :: w.files })

/-- Function `handleGet` of main.go: the handler of `/get-data`. -/
def handleGet (env : Env) (query : Values) (w : World) : Response × World :=
  let userID := query.Get "user_id"
  let vehicleID := query.Get "vehicle_id"
  let year := query.Get "year"
  let month := query.Get "month"
  let day := query.Get "day"
  if userID = "" ∨ vehicleID = "" ∨ year = "" ∨ month = "" ∨ day = "" then
    (httpError "Missing query parameters" StatusBadRequest, w)
  else
    match getMonthName month with
    | .error _ => (httpError "Invalid month format" StatusBadRequest, w)
    | .ok monthName =>
      let keyParts := [
        "gps_data-20241008T164836Z-001",
        "gps_data",
        "dev",
        userID,
        vehicleID,
        year,
        monthName,
        day,
        "gps_data.json"]
      let key := Join keyParts "/"
      let bucket := "srihari03"
      match downloadObject env bucket key w with
      | (.error err, w) =>
        (httpError "Failed to retrieve object" StatusInternalServerError,
          logPrintf w "Failed to retrieve object from S3: " err)
      | (.ok filePath, w) =>
        match ReadFile env w filePath with
        | .error err =>
          (httpError "Failed to read downloaded file" StatusInternalServerError,
            logPrintf w "Failed to read file: " err)
        | .ok file =>
          ({ status := StatusOK, header := [("Content-Type", "application/json")],
             body := file }, w)

/-! ## Vocabulary of the specification -/

/-- The twelve two-digit month strings. -/
def monthStrings : List String :=
  ["01", "02", "03", "04", "05", "06", "07", "08", "09", "10", "11", "12"]

/-- The month strings with the English month names the specification pairs them with. -/
def monthTable : List (String × String) :=
  [("01", "January"), ("02", "February"), ("03", "March"), ("04", "April"),
   ("05", "May"), ("06", "June"), ("07", "July"), ("08", "August"),
   ("09", "September"), ("10", "October"), ("11", "November"), ("12", "December")]

/-- All five query parameters the handler reads are present and non-empty. -/
def allPresent (query : Values) : Prop :=
  query.Get "user_id" ≠ "" ∧ query.Get "vehicle_id" ≠ "" ∧ query.Get "year" ≠ "" ∧
    query.Get "month" ≠ "" ∧ query.Get "day" ≠ ""

/-- The five query parameters the handler reads. -/
def requiredParams : List String := ["user_id", "vehicle_id", "year", "month", "day"]

/-- The key built at lines 77-88 of main.go, as a function of its five variable
segments. -/
def objectKey (userID vehicleID year monthName day : String) : String :=
  Join [
    "gps_data-20241008T164836Z-001",
    "gps_data",
    "dev",
    userID,
    vehicleID,
    year,
    monthName,
    day,
    "gps_data.json"] "/"

/-- The character `/` does not occur in the string. -/
def slashFree (s : String) : Prop := '/' ∉ s.data

/-- The zero-padded two-digit decimal numeral of a number below 100. -/
def twoDigit (n : Nat) : String :=
  if n < 10 then "0" ++ toString n else toString n

/-! ## Example requests and environments -/

/-- A query that supplies `user_id=u1`, `vehicle_id=v1`, `year=2024`, `day=15` and the
given month. -/
def queryWithMonth (month : String) : Values :=
  [("user_id", "u1"), ("vehicle_id", "v1"), ("year", "2024"), ("month", month), ("day", "15")]

/-- The query of `GET /get-data?user_id=u1&vehicle_id=v1&year=2024&month=04&day=15`. -/
def exampleQuery : Values := queryWithMonth "04"

/-- The parameters of `exampleQuery` in the opposite order, followed by an extra one. -/
def reorderedQuery : Values :=
  [("day", "15"), ("month", "04"), ("year", "2024"), ("vehicle_id", "v1"), ("user_id", "u1"),
   ("format", "json")]

/-- A query without its entries for one parameter. -/
def withoutParam (key : String) (query : Values) : Values :=
  query.filter fun p => p.1 != key

/-- The query of `GET /get-data?account_id=u1&device_id=v1&year=2024&month=04&day=15`. -/
def accountQuery : Values :=
  [("account_id", "u1"), ("device_id", "v1"), ("year", "2024"), ("month", "04"), ("day", "15")]

/-- The key derived from `exampleQuery`. -/
def exampleKey : String :=
  "gps_data-20241008T164836Z-001/gps_data/dev/u1/v1/2024/April/15/gps_data.json"

/-- The bytes of the JSON text `\x7b"lat":1,"lon":2\x7d`. -/
def exampleObject : Bytes :=
  [123, 34, 108, 97, 116, 34, 58, 49, 44, 34, 108, 111, 110, 34, 58, 50, 125]

/-- An environment whose store holds `exampleObject` at `exampleKey` in the bucket
`srihari03` and nothing else, and in which no file operation fails. -/
def exampleEnv : Env :=
  { GetObject := fun bucket key =>
      if bucket = "srihari03" ∧ key = exampleKey then .ok exampleObject
      else .error "NoSuchKey: The specified key does not exist."
    CreateTemp := .ok "/tmp/downloaded_gps_data_1.json"
    Copy := none
    ReadFile := none }

/-- An environment whose store answers every request with the given error. -/
def failingEnv (err : String) : Env :=
  { GetObject := fun _ _ => .error err
    CreateTemp := .ok "/tmp/downloaded_gps_data_1.json"
    Copy := none
    ReadFile := none }

/-- A world with no files, an empty log and no store request yet. -/
def emptyWorld : World := { files := [], log := [], calls := [] }

/-- Two requests that differ in `vehicle_id` and `year`, one with a `/` in each. -/
def shiftedQueryA : Values :=
  [("user_id", "u1"), ("vehicle_id", "v1/2024"), ("year", "2025"), ("month", "04"),
   ("day", "15")]

/-- See `shiftedQueryA`. -/
def shiftedQueryB : Values :=
  [("user_id", "u1"), ("vehicle_id", "v1"), ("year", "2024/2025"), ("month", "04"),
   ("day", "15")]

/-- The request with `user_id=a/b` and `vehicle_id=c`. -/
def slashQueryA : Values :=
  [("user_id", "a/b"), ("vehicle_id", "c"), ("year", "2024"), ("month", "04"), ("day", "15")]

/-- The request with `user_id=a` and `vehicle_id=b/c`. -/
def slashQueryB : Values :=
  [("user_id", "a"), ("vehicle_id", "b/c"), ("year", "2024"), ("month", "04"), ("day", "15")]

/-! ## Lemmas on `getMonthName` -/

theorem digit_mem {c : Char} (h : (decide ('0' ≤ c) && decide (c ≤ '9')) = true) :
    c ∈ ['0', '1', '2', '3', '4', '5', '6', '7', '8', '9'] := by
  simp only [Bool.and_eq_true, decide_eq_true_eq, Char.le_def, UInt32.le_def, Fin.le_def] at h
  have hc : c = Char.ofNat c.toNat := (Char.ofNat_toNat c).symm
  have h1 : 48 ≤ c.toNat := h.1
  have h2 : c.toNat ≤ 57 := h.2
  rw [hc]
  generalize c.toNat = n at h1 h2
  interval_cases n <;> decide

theorem getMonthName_ok_mem {s name : String} (h : getMonthName s = .ok name) :
    s ∈ monthStrings := by
  obtain ⟨l⟩ := s
  match l with
  | [] => simp [getMonthName, Parse01, getnum, isDigit] at h
  | [c] =>
    by_cases d : (decide ('0' ≤ c) && decide (c ≤ '9')) = true <;>
      simp [getMonthName, Parse01, getnum, isDigit, d] at h
  | c1 :: c2 :: rest =>
    by_cases d1 : (decide ('0' ≤ c1) && decide (c1 ≤ '9')) = true
    · by_cases d2 : (decide ('0' ≤ c2) && decide (c2 ≤ '9')) = true
      · have m1 := digit_mem d1
        have m2 := digit_mem d2
        simp only [List.mem_cons, List.mem_singleton, List.not_mem_nil, or_false] at m1 m2
        have h' : (getMonthName ⟨c1 :: c2 :: rest⟩).toBool = true := by rw [h]; rfl
        cases rest with
        | nil =>
          rcases m1 with rfl | rfl | rfl | rfl | rfl | rfl | rfl | rfl | rfl | rfl <;>
            rcases m2 with rfl | rfl | rfl | rfl | rfl | rfl | rfl | rfl | rfl | rfl <;>
            first
              | decide
              | (exfalso; revert h'; decide)
        | cons c3 rest =>
          exfalso
          simp only [getMonthName, Parse01, getnum, isDigit, List.get?, d1, d2, Bool.not_true,
            Bool.false_eq_true, if_false, List.drop, List.length_cons] at h
          split at h
          · simp at h
          · rename_i heq
            split at heq
            · simp at heq
            · simp at heq
      · simp [getMonthName, Parse01, getnum, isDigit, d1, d2] at h
    · simp [getMonthName, Parse01, getnum, isDigit, d1] at h

theorem getMonthName_table {p : String × String} (hp : p ∈ monthTable) :
    getMonthName p.1 = .ok p.2 := by
  simp only [monthTable, List.mem_cons, List.mem_singleton, List.not_mem_nil, or_false] at hp
  rcases hp with rfl | rfl | rfl | rfl | rfl | rfl | rfl | rfl | rfl | rfl | rfl | rfl <;> rfl

theorem monthStrings_table {s : String} (h : s ∈ monthStrings) :
    ∃ name, (s, name) ∈ monthTable := by
  simp only [monthStrings, List.mem_cons, List.mem_singleton, List.not_mem_nil, or_false] at h
  rcases h with rfl | rfl | rfl | rfl | rfl | rfl | rfl | rfl | rfl | rfl | rfl | rfl
  · exact ⟨"January", by decide⟩
  · exact ⟨"February", by decide⟩
  · exact ⟨"March", by decide⟩
  · exact ⟨"April", by decide⟩
  · exact ⟨"May", by decide⟩
  · exact ⟨"June", by decide⟩
  · exact ⟨"July", by decide⟩
  · exact ⟨"August", by decide⟩
  · exact ⟨"September", by decide⟩
  · exact ⟨"October", by decide⟩
  · exact ⟨"November", by decide⟩
  · exact ⟨"December", by decide⟩

theorem table_monthStrings {p : String × String} (hp : p ∈ monthTable) :
    p.1 ∈ monthStrings := by
  simp only [monthTable, List.mem_cons, List.mem_singleton, List.not_mem_nil, or_false] at hp
  rcases hp with rfl | rfl | rfl | rfl | rfl | rfl | rfl | rfl | rfl | rfl | rfl | rfl <;> decide

theorem table_name_ne {p : String × String} (hp : p ∈ monthTable) : p.2 ≠ p.1 := by
  simp only [monthTable, List.mem_cons, List.mem_singleton, List.not_mem_nil, or_false] at hp
  rcases hp with rfl | rfl | rfl | rfl | rfl | rfl | rfl | rfl | rfl | rfl | rfl | rfl <;> decide

theorem table_name_slashFree {p : String × String} (hp : p ∈ monthTable) : slashFree p.2 := by
  simp only [monthTable, List.mem_cons, List.mem_singleton, List.not_mem_nil, or_false] at hp
  rcases hp with rfl | rfl | rfl | rfl | rfl | rfl | rfl | rfl | rfl | rfl | rfl | rfl <;>
    (unfold slashFree; decide)

theorem table_injective {p q : String × String} (hp : p ∈ monthTable) (hq : q ∈ monthTable)
    (h : p.2 = q.2) : p.1 = q.1 := by
  simp only [monthTable, List.mem_cons, List.mem_singleton, List.not_mem_nil, or_false] at hp hq
  rcases hp with rfl | rfl | rfl | rfl | rfl | rfl | rfl | rfl | rfl | rfl | rfl | rfl <;>
    rcases hq with rfl | rfl | rfl | rfl | rfl | rfl | rfl | rfl | rfl | rfl | rfl | rfl <;>
    first
      | rfl
      | (exfalso; revert h; decide)

theorem getMonthName_error_text {s e : String} (h : getMonthName s = .error e) :
    ∃ rest, e = "invalid month format" ++ rest := by
  unfold getMonthName at h
  split at h
  · rename_i err _
    refine ⟨": " ++ err.Error, ?_⟩
    injection h with h
    rw [← h, ← String.append_assoc]
    rfl
  · cases h

theorem getMonthName_error_of_not_mem {s : String} (h : s ∉ monthStrings) :
    ∃ rest, getMonthName s = .error ("invalid month format" ++ rest) := by
  cases hs : getMonthName s with
  | error e =>
    obtain ⟨rest, hr⟩ := getMonthName_error_text hs
    exact ⟨rest, by rw [hr]⟩
  | ok name => exact absurd (getMonthName_ok_mem hs) h

/-! ## Lemmas on `handleGet` -/

theorem handleGet_missing (env : Env) (query : Values) (w : World)
    (h : query.Get "user_id" = "" ∨ query.Get "vehicle_id" = "" ∨ query.Get "year" = "" ∨
      query.Get "month" = "" ∨ query.Get "day" = "") :
    handleGet env query w = (httpError "Missing query parameters" StatusBadRequest, w) := by
  unfold handleGet
  simp only [if_pos h]

theorem not_missing {query : Values} (h : allPresent query) :
    ¬ (query.Get "user_id" = "" ∨ query.Get "vehicle_id" = "" ∨ query.Get "year" = "" ∨
      query.Get "month" = "" ∨ query.Get "day" = "") := by
  obtain ⟨h1, h2, h3, h4, h5⟩ := h
  simp [h1, h2, h3, h4, h5]

theorem handleGet_invalid (env : Env) (query : Values) (w : World) (h : allPresent query)
    {e : String} (he : getMonthName (query.Get "month") = .error e) :
    handleGet env query w = (httpError "Invalid month format" StatusBadRequest, w) := by
  unfold handleGet
  simp only [if_neg (not_missing h), he]

theorem handleGet_fetch (env : Env) (query : Values) (w : World) (h : allPresent query)
    {monthName : String} (hm : getMonthName (query.Get "month") = .ok monthName) :
    handleGet env query w =
      match downloadObject env "srihari03"
          (objectKey (query.Get "user_id") (query.Get "vehicle_id") (query.Get "year")
            monthName (query.Get "day")) w with
      | (.error err, w) =>
        (httpError "Failed to retrieve object" StatusInternalServerError,
          logPrintf w "Failed to retrieve object from S3: " err)
      | (.ok filePath, w) =>
        match ReadFile env w filePath with
        | .error err =>
          (httpError "Failed to read downloaded file" StatusInternalServerError,
            logPrintf w "Failed to read file: " err)
        | .ok file =>
          ({ status := StatusOK, header := [("Content-Type", "application/json")],
             body := file }, w) := by
  unfold handleGet
  simp only [if_neg (not_missing h), hm]
  rfl

theorem downloadObject_calls (env : Env) (bucket key : String) (w : World) :
    (downloadObject env bucket key w).2.calls = w.calls ++ [(bucket, key)] := by
  unfold downloadObject
  cases env.GetObject bucket key with
  | error err => rfl
  | ok body =>
    cases env.CreateTemp with
    | error err => rfl
    | ok name =>
      cases env.Copy with
      | none => rfl
      | some p => rfl

theorem handleGet_calls (env : Env) (query : Values) (w : World) (h : allPresent query)
    {monthName : String} (hm : getMonthName (query.Get "month") = .ok monthName) :
    (handleGet env query w).2.calls = w.calls ++ [("srihari03",
      objectKey (query.Get "user_id") (query.Get "vehicle_id") (query.Get "year")
        monthName (query.Get "day"))] := by
  rw [handleGet_fetch env query w h hm, ← downloadObject_calls env]
  generalize downloadObject env "srihari03" _ w = r
  obtain ⟨res, w1⟩ := r
  cases res with
  | error err => rfl
  | ok filePath =>
    simp only
    cases ReadFile env w1 filePath with
    | error err => rfl
    | ok file => rfl

/-! ## Lemmas on the key -/

theorem split_slash {a b x y : List Char} (ha : '/' ∉ a) (hb : '/' ∉ b)
    (h : a ++ '/' :: x = b ++ '/' :: y) : a = b ∧ x = y := by
  induction a generalizing b with
  | nil =>
    cases b with
    | nil => simpa using h
    | cons c b =>
      simp only [List.nil_append, List.cons_append, List.cons.injEq] at h
      simp only [List.mem_cons, not_or] at hb
      exact absurd h.1 hb.1
  | cons c a ih =>
    cases b with
    | nil =>
      simp only [List.nil_append, List.cons_append, List.cons.injEq] at h
      simp only [List.mem_cons, not_or] at ha
      exact absurd h.1.symm ha.1
    | cons d b =>
      simp only [List.cons_append, List.cons.injEq] at h
      simp only [List.mem_cons, not_or] at ha hb
      obtain ⟨hab, hxy⟩ := ih ha.2 hb.2 h.2
      exact ⟨by rw [h.1, hab], hxy⟩

theorem objectKey_data (u v y m d : String) :
    (objectKey u v y m d).data =
      "gps_data-20241008T164836Z-001/gps_data/dev/".data ++ (u.data ++ '/' :: (v.data ++
        '/' :: (y.data ++ '/' :: (m.data ++ '/' :: (d.data ++ "/gps_data.json".data))))) := by
  simp [objectKey, Join, String.data_append]

theorem objectKey_append (u v y m d : String) :
    objectKey u v y m d =
      "gps_data-20241008T164836Z-001/gps_data/dev/" ++ u ++ "/" ++ v ++ "/" ++ y ++ "/" ++ m
        ++ "/" ++ d ++ "/gps_data.json" := by
  apply String.ext
  rw [objectKey_data]
  simp [String.data_append]

theorem objectKey_inj {u v y m d u' v' y' m' d' : String}
    (hu : slashFree u) (hu' : slashFree u') (hv : slashFree v) (hv' : slashFree v')
    (hy : slashFree y) (hy' : slashFree y') (hm : slashFree m) (hm' : slashFree m')
    (h : objectKey u v y m d = objectKey u' v' y' m' d') :
    u = u' ∧ v = v' ∧ y = y' ∧ m = m' ∧ d = d' := by
  have hd := congrArg String.data h
  rw [objectKey_data, objectKey_data] at hd
  have h0 := List.append_cancel_left hd
  obtain ⟨e1, h1⟩ := split_slash hu hu' h0
  obtain ⟨e2, h2⟩ := split_slash hv hv' h1
  obtain ⟨e3, h3⟩ := split_slash hy hy' h2
  obtain ⟨e4, h4⟩ := split_slash hm hm' h3
  have e5 := List.append_cancel_right h4
  exact ⟨String.ext e1, String.ext e2, String.ext e3, String.ext e4, String.ext e5⟩

theorem month_ok_of_mem {m : String} (h : m ∈ monthStrings) :
    ∃ name, (m, name) ∈ monthTable ∧ getMonthName m = .ok name := by
  obtain ⟨name, hn⟩ := monthStrings_table h
  exact ⟨name, hn, getMonthName_table hn⟩

theorem requested_key_inj {env1 env2 : Env} {q1 q2 : Values} {w1 w2 : World} {key : String}
    (h1 : allPresent q1) (h2 : allPresent q2)
    (hm1 : q1.Get "month" ∈ monthStrings) (hm2 : q2.Get "month" ∈ monthStrings)
    (hu1 : slashFree (q1.Get "user_id")) (hu2 : slashFree (q2.Get "user_id"))
    (hv1 : slashFree (q1.Get "vehicle_id")) (hv2 : slashFree (q2.Get "vehicle_id"))
    (hy1 : slashFree (q1.Get "year")) (hy2 : slashFree (q2.Get "year"))
    (hk1 : (handleGet env1 q1 w1).2.calls = w1.calls ++ [("srihari03", key)])
    (hk2 : (handleGet env2 q2 w2).2.calls = w2.calls ++ [("srihari03", key)]) :
    q1.Get "user_id" = q2.Get "user_id" ∧ q1.Get "vehicle_id" = q2.Get "vehicle_id" ∧
      q1.Get "year" = q2.Get "year" ∧ q1.Get "month" = q2.Get "month" ∧
      q1.Get "day" = q2.Get "day" := by
  obtain ⟨n1, t1, g1⟩ := month_ok_of_mem hm1
  obtain ⟨n2, t2, g2⟩ := month_ok_of_mem hm2
  rw [handleGet_calls env1 q1 w1 h1 g1] at hk1
  rw [handleGet_calls env2 q2 w2 h2 g2] at hk2
  have e1 := List.append_cancel_left hk1
  have e2 := List.append_cancel_left hk2
  simp only [List.cons.injEq, Prod.mk.injEq, true_and, and_true] at e1 e2
  obtain ⟨a, b, c, d, e⟩ := objectKey_inj hu1 hu2 hv1 hv2 hy1 hy2 (table_name_slashFree t1)
    (table_name_slashFree t2) (e1.trans e2.symm)
  exact ⟨a, b, c, table_injective t1 t2 d, e⟩

theorem get_of_lookup_none {query : Values} {k : String}
    (h : query.lookup k = none ∨ query.lookup k = some "") : query.Get k = "" := by
  unfold Values.Get
  rcases h with h | h <;> rw [h]

/-! ## The claims -/

/-- C1: for each of the twelve month strings "01" to "12", paired in `monthTable` with
its English month name, `getMonthName` returns that name without error, the name
differs from the numeric string, and for a request with all five parameters present
and that month the key `handleGet` asks the store for is the join of the nine segments
with the name in the month slot. -/
theorem month_name_in_key (p : String × String) (hp : p ∈ monthTable) :
    getMonthName p.1 = .ok p.2 ∧ p.2 ≠ p.1 ∧
    ∀ (env : Env) (query : Values) (w : World),
      allPresent query → query.Get "month" = p.1 →
      (handleGet env query w).2.calls = w.calls ++ [("srihari03",
        Join ["gps_data-20241008T164836Z-001", "gps_data", "dev", query.Get "user_id",
          query.Get "vehicle_id", query.Get "year", p.2, query.Get "day",
          "gps_data.json"] "/")] := by
  refine ⟨getMonthName_table hp, table_name_ne hp, ?_⟩
  intro env query w hq hm
  have hg : getMonthName (query.Get "month") = .ok p.2 := by
    rw [hm]; exact getMonthName_table hp
  exact handleGet_calls env query w hq hg

/-- C1, at the month "04" and the request user_id=u1, vehicle_id=v1, year=2024,
month=04, day=15. -/
theorem month_name_in_key_witness :
    getMonthName "04" = .ok "April" ∧ "April" ≠ "04" ∧
    (handleGet exampleEnv exampleQuery emptyWorld).2.calls = [("srihari03", exampleKey)] :=
  have t := month_name_in_key ("04", "April") (by decide)
  ⟨t.1, t.2.1, t.2.2 exampleEnv exampleQuery emptyWorld (by unfold allPresent; decide) rfl⟩

/-- C2: for every month string that is not one of "01" to "12", `getMonthName` returns
an error, and every request whose five parameters are non-empty and whose month is that
string is answered with status 400 and the message "Invalid month format", without any
request to the store and without a log line. -/
theorem invalid_month_rejected (month : String) (h : month ∉ monthStrings) :
    (∃ err, getMonthName month = .error err) ∧
    ∀ (env : Env) (query : Values) (w : World),
      allPresent query → query.Get "month" = month →
      handleGet env query w = (httpError "Invalid month format" 400, w) := by
  obtain ⟨rest, hr⟩ := getMonthName_error_of_not_mem h
  refine ⟨⟨_, hr⟩, ?_⟩
  intro env query w hq hm
  rw [← hm] at hr
  exact handleGet_invalid env query w hq hr

/-- C2, at the months "00", "13", "4", "012", "ab" and " 04". -/
theorem invalid_month_rejected_witness :
    (∃ err, getMonthName "00" = .error err) ∧
    handleGet exampleEnv (queryWithMonth "13") emptyWorld
      = (httpError "Invalid month format" 400, emptyWorld) ∧
    handleGet exampleEnv (queryWithMonth "4") emptyWorld
      = (httpError "Invalid month format" 400, emptyWorld) ∧
    handleGet exampleEnv (queryWithMonth "012") emptyWorld
      = (httpError "Invalid month format" 400, emptyWorld) ∧
    handleGet exampleEnv (queryWithMonth "ab") emptyWorld
      = (httpError "Invalid month format" 400, emptyWorld) ∧
    handleGet exampleEnv (queryWithMonth " 04") emptyWorld
      = (httpError "Invalid month format" 400, emptyWorld) :=
  ⟨(invalid_month_rejected "00" (by decide)).1,
   (invalid_month_rejected "13" (by decide)).2 exampleEnv (queryWithMonth "13") emptyWorld
      (by unfold allPresent; decide) rfl,
   (invalid_month_rejected "4" (by decide)).2 exampleEnv (queryWithMonth "4") emptyWorld
      (by unfold allPresent; decide) rfl,
   (invalid_month_rejected "012" (by decide)).2 exampleEnv (queryWithMonth "012") emptyWorld
      (by unfold allPresent; decide) rfl,
   (invalid_month_rejected "ab" (by decide)).2 exampleEnv (queryWithMonth "ab") emptyWorld
      (by unfold allPresent; decide) rfl,
   (invalid_month_rejected " 04" (by decide)).2 exampleEnv (queryWithMonth " 04") emptyWorld
      (by unfold allPresent; decide) rfl⟩

/-- C3: when at least one of the five parameters user_id, vehicle_id, year, month, day
is absent from the query or has the empty string as its first value, `handleGet`
answers with status 400 and the message "Missing query parameters", whatever the other
parameters are, without any request to the store and without a log line. -/
theorem missing_parameter_rejected (env : Env) (query : Values) (w : World)
    (h : ∃ k ∈ requiredParams, query.lookup k = none ∨ query.lookup k = some "") :
    handleGet env query w = (httpError "Missing query parameters" 400, w) := by
  obtain ⟨k, hk, hl⟩ := h
  have hg := get_of_lookup_none hl
  apply handleGet_missing
  simp only [requiredParams, List.mem_cons, List.mem_singleton, List.not_mem_nil,
    or_false] at hk
  rcases hk with rfl | rfl | rfl | rfl | rfl <;> simp [hg]

/-- C3, at each of the five single omissions, at the empty query, at an empty value, and
at a missing day together with an invalid month. -/
theorem missing_parameter_rejected_witness :
    handleGet exampleEnv (withoutParam "user_id" exampleQuery) emptyWorld
      = (httpError "Missing query parameters" 400, emptyWorld) ∧
    handleGet exampleEnv (withoutParam "vehicle_id" exampleQuery) emptyWorld
      = (httpError "Missing query parameters" 400, emptyWorld) ∧
    handleGet exampleEnv (withoutParam "year" exampleQuery) emptyWorld
      = (httpError "Missing query parameters" 400, emptyWorld) ∧
    handleGet exampleEnv (withoutParam "month" exampleQuery) emptyWorld
      = (httpError "Missing query parameters" 400, emptyWorld) ∧
    handleGet exampleEnv (withoutParam "day" exampleQuery) emptyWorld
      = (httpError "Missing query parameters" 400, emptyWorld) ∧
    handleGet exampleEnv [] emptyWorld
      = (httpError "Missing query parameters" 400, emptyWorld) ∧
    handleGet exampleEnv (("year", "") :: exampleQuery) emptyWorld
      = (httpError "Missing query parameters" 400, emptyWorld) ∧
    handleGet exampleEnv (withoutParam "day" (queryWithMonth "13")) emptyWorld
      = (httpError "Missing query parameters" 400, emptyWorld) :=
  ⟨missing_parameter_rejected _ _ _ ⟨"user_id", by decide, Or.inl rfl⟩,
   missing_parameter_rejected _ _ _ ⟨"vehicle_id", by decide, Or.inl rfl⟩,
   missing_parameter_rejected _ _ _ ⟨"year", by decide, Or.inl rfl⟩,
   missing_parameter_rejected _ _ _ ⟨"month", by decide, Or.inl rfl⟩,
   missing_parameter_rejected _ _ _ ⟨"day", by decide, Or.inl rfl⟩,
   missing_parameter_rejected _ _ _ ⟨"user_id", by decide, Or.inl rfl⟩,
   missing_parameter_rejected _ _ _ ⟨"year", by decide, Or.inr rfl⟩,
   missing_parameter_rejected _ _ _ ⟨"day", by decide, Or.inl rfl⟩⟩

/-- C4: for every request whose five parameters are non-empty and whose month is one
of "01" to "12", `handleGet` asks the store for exactly one object, in the bucket
"srihari03", whose key is the fixed prefix followed by user_id, vehicle_id, year, the
month name, day and "gps_data.json", that is the nine segments joined by "/". -/
theorem requested_object (env : Env) (query : Values) (w : World)
    (hp : allPresent query) (hm : query.Get "month" ∈ monthStrings) :
    ∃ monthName, (query.Get "month", monthName) ∈ monthTable ∧
      getMonthName (query.Get "month") = .ok monthName ∧
      (handleGet env query w).2.calls = w.calls ++ [("srihari03",
        "gps_data-20241008T164836Z-001/gps_data/dev/" ++ query.Get "user_id" ++ "/" ++
          query.Get "vehicle_id" ++ "/" ++ query.Get "year" ++ "/" ++ monthName ++ "/" ++
          query.Get "day" ++ "/gps_data.json")] ∧
      "gps_data-20241008T164836Z-001/gps_data/dev/" ++ query.Get "user_id" ++ "/" ++
          query.Get "vehicle_id" ++ "/" ++ query.Get "year" ++ "/" ++ monthName ++ "/" ++
          query.Get "day" ++ "/gps_data.json" =
        Join ["gps_data-20241008T164836Z-001", "gps_data", "dev", query.Get "user_id",
          query.Get "vehicle_id", query.Get "year", monthName, query.Get "day",
          "gps_data.json"] "/" := by
  obtain ⟨name, ht, hg⟩ := month_ok_of_mem hm
  refine ⟨name, ht, hg, ?_, ?_⟩
  · rw [handleGet_calls env query w hp hg, objectKey_append]
  · exact (objectKey_append _ _ _ _ _).symm

/-- C4, at the request user_id=u1, vehicle_id=v1, year=2024, month=04, day=15. -/
theorem requested_object_witness :
    (handleGet exampleEnv exampleQuery emptyWorld).2.calls = [("srihari03",
      "gps_data-20241008T164836Z-001/gps_data/dev/u1/v1/2024/April/15/gps_data.json")] := by
  obtain ⟨name, _, hg, hc, _⟩ := requested_object exampleEnv exampleQuery emptyWorld
    (by unfold allPresent; decide) (by decide)
  have hn : name = "April" := by
    have h04 : getMonthName (exampleQuery.Get "month") = .ok "April" := rfl
    rw [h04] at hg
    exact (Except.ok.inj hg).symm
  subst hn
  exact hc

/-- C5, as stated, fails: two requests with non-empty fields and the valid month "04",
one with vehicle_id=v1/2024 and year=2025, the other with vehicle_id=v1 and
year=2024/2025, make `handleGet` ask the store for the same key. -/
theorem key_not_injective :
    allPresent shiftedQueryA ∧ allPresent shiftedQueryB ∧
    shiftedQueryA.Get "month" ∈ monthStrings ∧ shiftedQueryB.Get "month" ∈ monthStrings ∧
    (handleGet exampleEnv shiftedQueryA emptyWorld).2.calls = [("srihari03",
      "gps_data-20241008T164836Z-001/gps_data/dev/u1/v1/2024/2025/April/15/gps_data.json")] ∧
    (handleGet exampleEnv shiftedQueryB emptyWorld).2.calls = [("srihari03",
      "gps_data-20241008T164836Z-001/gps_data/dev/u1/v1/2024/2025/April/15/gps_data.json")] ∧
    shiftedQueryA.Get "vehicle_id" ≠ shiftedQueryB.Get "vehicle_id" ∧
    shiftedQueryA.Get "year" ≠ shiftedQueryB.Get "year" :=
  ⟨by unfold allPresent; decide, by unfold allPresent; decide, by decide, by decide,
   by decide, by decide, by decide, by decide⟩

/-- C5, amended: for two requests with all five fields non-empty and months among "01"
to "12", whose user_id, vehicle_id and year contain no "/", if `handleGet` asks the
store for the same key for both then the two requests are equal field by field. -/
theorem key_injective_of_slashFree_ids (env1 env2 : Env) (q1 q2 : Values) (w1 w2 : World)
    (key : String) (h1 : allPresent q1) (h2 : allPresent q2)
    (hm1 : q1.Get "month" ∈ monthStrings) (hm2 : q2.Get "month" ∈ monthStrings)
    (hu1 : slashFree (q1.Get "user_id")) (hu2 : slashFree (q2.Get "user_id"))
    (hv1 : slashFree (q1.Get "vehicle_id")) (hv2 : slashFree (q2.Get "vehicle_id"))
    (hy1 : slashFree (q1.Get "year")) (hy2 : slashFree (q2.Get "year"))
    (hk1 : (handleGet env1 q1 w1).2.calls = w1.calls ++ [("srihari03", key)])
    (hk2 : (handleGet env2 q2 w2).2.calls = w2.calls ++ [("srihari03", key)]) :
    q1.Get "user_id" = q2.Get "user_id" ∧ q1.Get "vehicle_id" = q2.Get "vehicle_id" ∧
      q1.Get "year" = q2.Get "year" ∧ q1.Get "month" = q2.Get "month" ∧
      q1.Get "day" = q2.Get "day" :=
  requested_key_inj h1 h2 hm1 hm2 hu1 hu2 hv1 hv2 hy1 hy2 hk1 hk2

/-- C5 amended, at the example request and at the same parameters in another order, the
first against a store that holds the object and the second against a store that fails. -/
theorem key_injective_of_slashFree_ids_witness :
    exampleQuery.Get "user_id" = reorderedQuery.Get "user_id" ∧
    exampleQuery.Get "vehicle_id" = reorderedQuery.Get "vehicle_id" ∧
    exampleQuery.Get "year" = reorderedQuery.Get "year" ∧
    exampleQuery.Get "month" = reorderedQuery.Get "month" ∧
    exampleQuery.Get "day" = reorderedQuery.Get "day" :=
  key_injective_of_slashFree_ids exampleEnv (failingEnv "AccessDenied") exampleQuery
    reorderedQuery emptyWorld emptyWorld exampleKey
    (by unfold allPresent; decide) (by unfold allPresent; decide) (by decide) (by decide)
    (by unfold slashFree; decide) (by unfold slashFree; decide)
    (by unfold slashFree; decide) (by unfold slashFree; decide)
    (by unfold slashFree; decide) (by unfold slashFree; decide) (by decide) (by decide)

/-- C6: for a request that passes validation, whenever `downloadObject` returns an
error (from the store, from the creation of the temporary file or from the copy),
`handleGet` answers with status 500 and the fixed message "Failed to retrieve object"
and writes the text of the error to the log only; two runs that fail with different
errors give the same response. -/
theorem fetch_error_hidden (env1 env2 : Env) (query : Values) (w w1 w2 : World)
    (monthName err1 err2 : String) (hp : allPresent query)
    (hm : getMonthName (query.Get "month") = .ok monthName)
    (hf1 : downloadObject env1 "srihari03"
      (objectKey (query.Get "user_id") (query.Get "vehicle_id") (query.Get "year") monthName
        (query.Get "day")) w = (.error err1, w1))
    (hf2 : downloadObject env2 "srihari03"
      (objectKey (query.Get "user_id") (query.Get "vehicle_id") (query.Get "year") monthName
        (query.Get "day")) w = (.error err2, w2)) :
    (handleGet env1 query w).1 = httpError "Failed to retrieve object" 500 ∧
    (handleGet env1 query w).2.log = w.log ++ ["Failed to retrieve object from S3: " ++ err1] ∧
    (handleGet env2 query w).1 = (handleGet env1 query w).1 := by
  have hw1 : w1.log = w.log := by
    have := congrArg (fun r => r.2.log) hf1
    simp only at this
    rw [← this]
    unfold downloadObject
    cases env1.GetObject _ _ with
    | error err => rfl
    | ok body =>
      cases env1.CreateTemp with
      | error err => rfl
      | ok name =>
        cases env1.Copy with
        | none => rfl
        | some p => rfl
  rw [handleGet_fetch env1 query w hp hm, handleGet_fetch env2 query w hp hm, hf1, hf2]
  refine ⟨rfl, ?_, rfl⟩
  simp only [logPrintf, hw1]

/-- C6, at the example request against a store that answers "NoSuchKey" and a store
that answers "AccessDenied". -/
theorem fetch_error_hidden_witness :
    (handleGet (failingEnv "NoSuchKey") exampleQuery emptyWorld).1
      = httpError "Failed to retrieve object" 500 ∧
    (handleGet (failingEnv "NoSuchKey") exampleQuery emptyWorld).2.log
      = ["Failed to retrieve object from S3: NoSuchKey"] ∧
    (handleGet (failingEnv "AccessDenied") exampleQuery emptyWorld).1
      = (handleGet (failingEnv "NoSuchKey") exampleQuery emptyWorld).1 :=
  fetch_error_hidden (failingEnv "NoSuchKey") (failingEnv "AccessDenied") exampleQuery
    emptyWorld _ _ "April" "NoSuchKey" "AccessDenied" (by unfold allPresent; decide) rfl
    rfl rfl

/-- C7: for a request that passes validation, when the store returns the bytes `b` for
the derived key in the bucket "srihari03" and neither the temporary file, the copy nor
the read-back fails, `handleGet` answers with status 200, the header Content-Type:
application/json and a body equal to `b`, whatever `b` is; the temporary file holds `b`
and nothing is logged. -/
theorem object_served_unchanged (env : Env) (query : Values) (w : World)
    (monthName name : String) (b : Bytes) (hp : allPresent query)
    (hm : getMonthName (query.Get "month") = .ok monthName)
    (hget : env.GetObject "srihari03"
      (objectKey (query.Get "user_id") (query.Get "vehicle_id") (query.Get "year") monthName
        (query.Get "day")) = .ok b)
    (htmp : env.CreateTemp = .ok name) (hcopy : env.Copy = none)
    (hread : env.ReadFile = none) :
    (handleGet env query w).1 =
      { status := 200, header := [("Content-Type", "application/json")], body := b } ∧
    (handleGet env query w).2.files = (name, b) :: w.files ∧
    (handleGet env query w).2.log = w.log := by
  have hd : downloadObject env "srihari03"
      (objectKey (query.Get "user_id") (query.Get "vehicle_id") (query.Get "year") monthName
        (query.Get "day")) w =
      (.ok name, { w with
        calls := w.calls ++ [("srihari03", objectKey (query.Get "user_id")
          (query.Get "vehicle_id") (query.Get "year") monthName (query.Get "day"))]
        files := (name, b) :: w.files }) := by
    unfold downloadObject
    simp only [hget, htmp, hcopy]
  rw [handleGet_fetch env query w hp hm, hd]
  simp only [ReadFile, hread, List.lookup, beq_self_eq_true]
  exact ⟨rfl, trivial, trivial⟩

/-- C7, at the request user_id=u1, vehicle_id=v1, year=2024, month=04, day=15 against a
store that holds the seventeen bytes of the JSON text with lat 1 and lon 2. -/
theorem object_served_unchanged_witness :
    (handleGet exampleEnv exampleQuery emptyWorld).1 =
      { status := 200, header := [("Content-Type", "application/json")],
        body := exampleObject } ∧
    (handleGet exampleEnv exampleQuery emptyWorld).2.files =
      [("/tmp/downloaded_gps_data_1.json", exampleObject)] ∧
    (handleGet exampleEnv exampleQuery emptyWorld).2.log = [] ∧
    exampleObject = stringBytes "\x7b\"lat\":1,\"lon\":2\x7d" :=
  have t := object_served_unchanged exampleEnv exampleQuery emptyWorld "April"
    "/tmp/downloaded_gps_data_1.json" exampleObject (by unfold allPresent; decide) rfl rfl
    rfl rfl rfl
  ⟨t.1, t.2.1, t.2.2, by decide⟩

/-- C8, as stated, fails: the plain decimal numeral of 4 is rejected. -/
theorem plain_numeral_rejected :
    toString (4 : Nat) = "4" ∧
    getMonthName (toString (4 : Nat)) = .error
      "invalid month format: parsing time \"4\" as \"01\": cannot parse \"4\" as \"01\"" :=
  ⟨by decide, rfl⟩

/-- C8, amended: `getMonthName` accepts exactly the zero-padded two-digit numerals of
the numbers 1 to 12 and yields the name of that month (so "10", "11" and "12", which
are their own two-digit form, are accepted as plain numerals); the plain numerals of 1
to 9 and every other string fail with an error whose message starts with "invalid
month format". -/
theorem two_digit_months_only :
    (∀ n : Nat, 1 ≤ n → n ≤ 12 →
      getMonthName (twoDigit n) = .ok (longMonthNames.getD (n - 1) "")) ∧
    (∀ n : Nat, 10 ≤ n → n ≤ 12 →
      getMonthName (toString n) = .ok (longMonthNames.getD (n - 1) "")) ∧
    (∀ n : Nat, 1 ≤ n → n ≤ 9 →
      ∃ rest, getMonthName (toString n) = .error ("invalid month format" ++ rest)) ∧
    (∀ s : String, (¬ ∃ n : Nat, 1 ≤ n ∧ n ≤ 12 ∧ s = twoDigit n) →
      ∃ rest, getMonthName s = .error ("invalid month format" ++ rest)) := by
  refine ⟨?_, ?_, ?_, ?_⟩
  · intro n h1 h2
    interval_cases n <;> rfl
  · intro n h1 h2
    interval_cases n <;> rfl
  · intro n h1 h2
    interval_cases n <;> exact getMonthName_error_of_not_mem (by decide)
  · intro s hs
    apply getMonthName_error_of_not_mem
    intro hmem
    apply hs
    simp only [monthStrings, List.mem_cons, List.mem_singleton, List.not_mem_nil,
      or_false] at hmem
    rcases hmem with rfl | rfl | rfl | rfl | rfl | rfl | rfl | rfl | rfl | rfl | rfl | rfl
    · exact ⟨1, by decide, by decide, by decide⟩
    · exact ⟨2, by decide, by decide, by decide⟩
    · exact ⟨3, by decide, by decide, by decide⟩
    · exact ⟨4, by decide, by decide, by decide⟩
    · exact ⟨5, by decide, by decide, by decide⟩
    · exact ⟨6, by decide, by decide, by decide⟩
    · exact ⟨7, by decide, by decide, by decide⟩
    · exact ⟨8, by decide, by decide, by decide⟩
    · exact ⟨9, by decide, by decide, by decide⟩
    · exact ⟨10, by decide, by decide, by decide⟩
    · exact ⟨11, by decide, by decide, by decide⟩
    · exact ⟨12, by decide, by decide, by decide⟩

/-- C8 amended, at the month 4 in its two forms, at the month 11, and at the strings
"13" and "April". -/
theorem two_digit_months_only_witness :
    getMonthName "04" = .ok "April" ∧
    getMonthName "11" = .ok "November" ∧
    (∃ rest, getMonthName "4" = .error ("invalid month format" ++ rest)) ∧
    (∃ rest, getMonthName "13" = .error ("invalid month format" ++ rest)) ∧
    (∃ rest, getMonthName "April" = .error ("invalid month format" ++ rest)) :=
  ⟨two_digit_months_only.1 4 (by decide) (by decide),
   two_digit_months_only.2.1 11 (by decide) (by decide),
   two_digit_months_only.2.2.1 4 (by decide) (by decide),
   two_digit_months_only.2.2.2 "13" (by
     rintro ⟨n, h1, h2, h⟩
     interval_cases n <;> revert h <;> decide),
   two_digit_months_only.2.2.2 "April" (by
     rintro ⟨n, h1, h2, h⟩
     interval_cases n <;> revert h <;> decide)⟩

/-- C9, as stated, fails: the request that supplies account_id=u1, device_id=v1,
year=2024, month=04, day=15 and nothing else is answered with status 400 and the message
"Missing query parameters", and nothing is asked of the store. -/
theorem account_id_not_read :
    handleGet exampleEnv accountQuery emptyWorld
      = (httpError "Missing query parameters" 400, emptyWorld) ∧
    (handleGet exampleEnv accountQuery emptyWorld).1.status = 400 ∧
    (handleGet exampleEnv accountQuery emptyWorld).2.calls = [] :=
  ⟨rfl, rfl, rfl⟩

/-- C9, amended: the parameters the handler reads are user_id, vehicle_id, year, month
and day. A request that supplies non-empty values for exactly these, with a month among
"01" to "12", passes the Validate step: the key is built from the user_id and vehicle_id
values and the status is 200 or 500, never 400. The same values supplied under the names
account_id and device_id are answered with 400 "Missing query parameters". -/
theorem user_id_vehicle_id_read (env : Env) (w : World) (u v y m d : String)
    (hu : u ≠ "") (hv : v ≠ "") (hy : y ≠ "") (hm : m ∈ monthStrings) (hd : d ≠ "") :
    (∃ monthName, getMonthName m = .ok monthName ∧
      (handleGet env [("user_id", u), ("vehicle_id", v), ("year", y), ("month", m),
        ("day", d)] w).2.calls = w.calls ++ [("srihari03", objectKey u v y monthName d)] ∧
      ((handleGet env [("user_id", u), ("vehicle_id", v), ("year", y), ("month", m),
        ("day", d)] w).1.status = 200 ∨
       (handleGet env [("user_id", u), ("vehicle_id", v), ("year", y), ("month", m),
        ("day", d)] w).1.status = 500)) ∧
    handleGet env [("account_id", u), ("device_id", v), ("year", y), ("month", m),
        ("day", d)] w = (httpError "Missing query parameters" 400, w) := by
  have hmne : m ≠ "" := by
    rintro rfl
    revert hm
    decide
  constructor
  · obtain ⟨name, _, hg⟩ := month_ok_of_mem hm
    have g1 : Values.Get [("user_id", u), ("vehicle_id", v), ("year", y), ("month", m),
        ("day", d)] "user_id" = u := by simp [Values.Get, List.lookup]
    have g2 : Values.Get [("user_id", u), ("vehicle_id", v), ("year", y), ("month", m),
        ("day", d)] "vehicle_id" = v := by simp [Values.Get, List.lookup]
    have g3 : Values.Get [("user_id", u), ("vehicle_id", v), ("year", y), ("month", m),
        ("day", d)] "year" = y := by simp [Values.Get, List.lookup]
    have g4 : Values.Get [("user_id", u), ("vehicle_id", v), ("year", y), ("month", m),
        ("day", d)] "month" = m := by simp [Values.Get, List.lookup]
    have g5 : Values.Get [("user_id", u), ("vehicle_id", v), ("year", y), ("month", m),
        ("day", d)] "day" = d := by simp [Values.Get, List.lookup]
    have hp : allPresent [("user_id", u), ("vehicle_id", v), ("year", y), ("month", m),
        ("day", d)] := by
      unfold allPresent
      rw [g1, g2, g3, g4, g5]
      exact ⟨hu, hv, hy, hmne, hd⟩
    have hg4 : getMonthName (Values.Get [("user_id", u), ("vehicle_id", v), ("year", y),
        ("month", m), ("day", d)] "month") = .ok name := by rw [g4]; exact hg
    refine ⟨name, hg, ?_, ?_⟩
    · have hc := handleGet_calls env _ w hp hg4
      rw [g1, g2, g3, g5] at hc
      exact hc
    · rw [handleGet_fetch env _ w hp hg4]
      generalize downloadObject env "srihari03" _ w = r
      obtain ⟨res, w1⟩ := r
      cases res with
      | error err => exact Or.inr rfl
      | ok filePath =>
        simp only
        cases ReadFile env w1 filePath with
        | error err => exact Or.inr rfl
        | ok file => exact Or.inl rfl
  · apply handleGet_missing
    left
    simp [Values.Get, List.lookup]

/-- C9 amended, at the values u1, v1, 2024, 04 and 15. -/
theorem user_id_vehicle_id_read_witness :
    (∃ monthName, getMonthName "04" = .ok monthName ∧
      (handleGet exampleEnv [("user_id", "u1"), ("vehicle_id", "v1"), ("year", "2024"),
        ("month", "04"), ("day", "15")] emptyWorld).2.calls
        = emptyWorld.calls ++ [("srihari03", objectKey "u1" "v1" "2024" monthName "15")] ∧
      ((handleGet exampleEnv [("user_id", "u1"), ("vehicle_id", "v1"), ("year", "2024"),
        ("month", "04"), ("day", "15")] emptyWorld).1.status = 200 ∨
       (handleGet exampleEnv [("user_id", "u1"), ("vehicle_id", "v1"), ("year", "2024"),
        ("month", "04"), ("day", "15")] emptyWorld).1.status = 500)) ∧
    handleGet exampleEnv [("account_id", "u1"), ("device_id", "v1"), ("year", "2024"),
        ("month", "04"), ("day", "15")] emptyWorld
      = (httpError "Missing query parameters" 400, emptyWorld) :=
  user_id_vehicle_id_read exampleEnv emptyWorld "u1" "v1" "2024" "04" "15" (by decide)
    (by decide) (by decide) (by decide) (by decide)

/-- C10: for two requests with non-empty fields and months among "01" to "12", whose
user_id, vehicle_id, year and day contain no "/", equal keys imply equal user_id,
vehicle_id, year, month and day; `getMonthName` is injective on "01" to "12" and none of
its names contains "/"; and without the precondition the requests user_id=a/b,
vehicle_id=c and user_id=a, vehicle_id=b/c, which differ, build the same key. -/
theorem key_injective_without_slash :
    (∀ (env1 env2 : Env) (q1 q2 : Values) (w1 w2 : World) (key : String),
      allPresent q1 → allPresent q2 →
      q1.Get "month" ∈ monthStrings → q2.Get "month" ∈ monthStrings →
      (∀ k ∈ ["user_id", "vehicle_id", "year", "day"],
        slashFree (q1.Get k) ∧ slashFree (q2.Get k)) →
      (handleGet env1 q1 w1).2.calls = w1.calls ++ [("srihari03", key)] →
      (handleGet env2 q2 w2).2.calls = w2.calls ++ [("srihari03", key)] →
      ∀ k ∈ requiredParams, q1.Get k = q2.Get k) ∧
    (∀ m1 ∈ monthStrings, ∀ m2 ∈ monthStrings, getMonthName m1 = getMonthName m2 → m1 = m2) ∧
    (∀ m ∈ monthStrings, ∃ name, getMonthName m = .ok name ∧ slashFree name) ∧
    (allPresent slashQueryA ∧ allPresent slashQueryB ∧
      slashQueryA.Get "month" ∈ monthStrings ∧ slashQueryB.Get "month" ∈ monthStrings ∧
      (handleGet exampleEnv slashQueryA emptyWorld).2.calls
        = (handleGet exampleEnv slashQueryB emptyWorld).2.calls ∧
      (handleGet exampleEnv slashQueryA emptyWorld).2.calls = [("srihari03",
        "gps_data-20241008T164836Z-001/gps_data/dev/a/b/c/2024/April/15/gps_data.json")] ∧
      slashQueryA.Get "user_id" ≠ slashQueryB.Get "user_id" ∧
      slashQueryA.Get "vehicle_id" ≠ slashQueryB.Get "vehicle_id") := by
  refine ⟨?_, ?_, ?_, ?_⟩
  · intro env1 env2 q1 q2 w1 w2 key h1 h2 hm1 hm2 hs hk1 hk2 k hk
    obtain ⟨a, b, c, d, e⟩ := requested_key_inj h1 h2 hm1 hm2
      (hs "user_id" (by decide)).1 (hs "user_id" (by decide)).2
      (hs "vehicle_id" (by decide)).1 (hs "vehicle_id" (by decide)).2
      (hs "year" (by decide)).1 (hs "year" (by decide)).2 hk1 hk2
    simp only [requiredParams, List.mem_cons, List.mem_singleton, List.not_mem_nil,
      or_false] at hk
    rcases hk with rfl | rfl | rfl | rfl | rfl
    · exact a
    · exact b
    · exact c
    · exact d
    · exact e
  · intro m1 h1 m2 h2 h
    obtain ⟨n1, t1, g1⟩ := month_ok_of_mem h1
    obtain ⟨n2, t2, g2⟩ := month_ok_of_mem h2
    rw [g1, g2] at h
    exact table_injective t1 t2 (Except.ok.inj h)
  · intro m hm
    obtain ⟨n, t, g⟩ := month_ok_of_mem hm
    exact ⟨n, g, table_name_slashFree t⟩
  · exact ⟨by unfold allPresent; decide, by unfold allPresent; decide, by decide, by decide,
      by decide, by decide, by decide, by decide⟩

/-- C10, at the example request and the same parameters in another order, and at the
months "04" and "04". -/
theorem key_injective_without_slash_witness :
    (∀ k ∈ requiredParams, exampleQuery.Get k = reorderedQuery.Get k) ∧
    ("04" : String) = "04" ∧
    (∃ name, getMonthName "09" = .ok name ∧ slashFree name) :=
  ⟨key_injective_without_slash.1 exampleEnv (failingEnv "SlowDown") exampleQuery
     reorderedQuery emptyWorld emptyWorld exampleKey (by unfold allPresent; decide)
     (by unfold allPresent; decide) (by decide) (by decide)
     (by
       intro k hk
       simp only [List.mem_cons, List.mem_singleton, List.not_mem_nil, or_false] at hk
       rcases hk with rfl | rfl | rfl | rfl <;> (unfold slashFree; decide))
     (by decide) (by decide),
   key_injective_without_slash.2.1 "04" (by decide) "04" (by decide) rfl,
   key_injective_without_slash.2.2.1 "09" (by decide)⟩

end S3Api
